import Mathlib

/-!
Shallow embedding of the `version-update-detector` library
(`src/VersionDetector.ts` and `src/UpdateNotification.ts`).

The two classes are single-threaded, event-driven browser components.  We
model them as pure state-transition functions:

* `localStorage` becomes the `Storage` record (the two keys
  `app_index_etag` / `app_index_last_modified` as `Option String`);
* the outcome of the two network requests issued by one
  `checkForUpdate` call (the HEAD fetch of `/index.html` and the
  connectivity probe `HEAD /`) is an explicit `World` input;
* observable side effects (fetches issued, `localStorage.setItem` calls,
  update-callback invocations) are collected in an ordered `Event` trace;
* a registered callback is abstracted by its behaviour when invoked
  (`CbBehavior`): it either returns normally or throws; the source's
  per-callback `try`/`catch` is embedded by `invokeCb : ... → Except`.

JavaScript truthiness matters in the source (`if (etag) ...`,
`!storedEtag`, `etag && etag !== storedEtag`): a `null` header *and* an
empty-string header are both falsy.  `truthy` embeds this exactly.
-/

/-- `UpdateReason` from `VersionDetector.ts`
(`'version-change' | 'redeploy' | 'resource-error' | 'network-error' | 'unknown'`). -/
inductive UpdateReason where
  | versionChange
  | redeploy
  | resourceError
  | networkError
  | unknown
deriving DecidableEq, Repr

/-- The two persisted `localStorage` keys. -/
structure Storage where
  /-- value under the key `app_index_etag` (`none` = key absent) -/
  etag : Option String
  /-- value under the key `app_index_last_modified` (`none` = key absent) -/
  lastModified : Option String
deriving DecidableEq, Repr

/-- Outcome of `fetch('/index.html?...', { method: 'HEAD', cache: 'no-cache' })`:
either the promise rejects, or it resolves with `response.ok` and the two
headers `etag` / `last-modified` (`none` = header absent). -/
inductive FetchOutcome where
  | throws
  | resp (ok : Bool) (etag lastModified : Option String)
deriving DecidableEq, Repr

/-- The network environment one `checkForUpdate` call runs against. -/
structure World where
  /-- outcome of the HEAD fetch of the entry document `/index.html` -/
  indexFetch : FetchOutcome
  /-- whether the connectivity probe `fetch('/', { method: 'HEAD' })`
  succeeds (`false` = it throws) -/
  probeSucceeds : Bool
deriving DecidableEq, Repr

/-- Behaviour of a registered callback when it is invoked: it either
returns normally or throws synchronously. -/
inductive CbBehavior where
  | ok
  | throws
deriving DecidableEq, Repr

/-- Observable side effects of the detector, in program order. -/
inductive Event where
  /-- the HEAD fetch of `/index.html` was issued -/
  | fetchIndex
  /-- the connectivity probe `HEAD /` was issued -/
  | fetchProbe
  /-- `localStorage.setItem(key, value)` -/
  | storageWrite (key value : String)
  /-- a registered update callback (at registration index `i`) was invoked
  with `reason` -/
  | callbackInvoked (i : Nat) (reason : UpdateReason)
  /-- the callback at index `i` threw; the exception was caught and logged
  (`console.error`), not re-raised -/
  | callbackError (i : Nat) (reason : UpdateReason)
deriving DecidableEq, Repr

/-- The mutable fields of a `VersionDetector` instance that
`checkForUpdate` / `destroy` read or write, together with the persisted
storage it operates on. -/
structure DetectorState where
  /-- `this.isLocalDevelopment` -/
  isLocalDevelopment : Bool
  /-- `this.options.skipInDevelopment` -/
  skipInDevelopment : Bool
  /-- `this.isChecking` (the in-flight flag) -/
  isChecking : Bool
  /-- the recurring `setInterval` timer (`this.timer !== null`) -/
  timerActive : Bool
  /-- `this.onUpdateCallbacks`, in registration order -/
  onUpdateCallbacks : List CbBehavior
  /-- `this.onResourceErrorCallbacks`, in registration order -/
  onResourceErrorCallbacks : List CbBehavior
  /-- the `localStorage` keys the detector persists its fingerprint in -/
  storage : Storage
deriving DecidableEq, Repr

/-- JavaScript truthiness of a `string | null` value: `null` and the
empty string are falsy. -/
def truthy : Option String → Bool
  | none => false
  | some s => decide (s ≠ "")

/-- The `localStorage` key `app_index_etag`. -/
def etagKey : String := "app_index_etag"

/-- The `localStorage` key `app_index_last_modified`. -/
def lastModifiedKey : String := "app_index_last_modified"

/-- `if (header) localStorage.setItem(key, header)` — the new stored value
for one key: overwritten only when the header is truthy. -/
def applyHeader (stored header : Option String) : Option String :=
  if truthy header then header else stored

/-- The `storageWrite` events emitted by
`if (header) localStorage.setItem(key, header)`. -/
def recordHeader (key : String) (header : Option String) : List Event :=
  match header with
  | none => []
  | some s => if s = "" then [] else [Event.storageWrite key s]

/-- `header && header !== stored` — one disjunct of the source's
`hasUpdate` test (line 319 of `VersionDetector.ts`). -/
def headerDiffers (header stored : Option String) : Bool :=
  truthy header && decide (header ≠ stored)

namespace VersionDetector

/-- One iteration of the `forEach` body in `notifyUpdate`:
`try { callback(reason) } catch (error) { console.error(...) }` —
the callback runs and its exception, if any, is an `Except.error`
that the caller catches. -/
def invokeCb : CbBehavior → Except String Unit
  | CbBehavior.ok => Except.ok ()
  | CbBehavior.throws => Except.error "callback threw"

/-- The trace produced by iterating `notifyUpdate`'s `forEach` over the
callbacks from registration index `i` on; each callback is invoked, a
thrown exception is caught and logged, and iteration continues. -/
def notifyFrom (i : Nat) (reason : UpdateReason) : List CbBehavior → List Event
  | [] => []
  | cb :: rest =>
      (match invokeCb cb with
       | Except.ok _ => [Event.callbackInvoked i reason]
       | Except.error _ => [Event.callbackInvoked i reason, Event.callbackError i reason])
      ++ notifyFrom (i + 1) reason rest

/-- `notifyUpdate(reason)` (`VersionDetector.ts` lines 347–356): invokes
every registered update callback with `reason`, in registration order,
catching (and logging) per-callback exceptions.  The return type is a
plain trace — no exception escapes to the caller. -/
def notifyUpdate (cbs : List CbBehavior) (reason : UpdateReason) : List Event :=
  notifyFrom 0 reason cbs

/-- The `try`-block of `checkVersionByIndex()` (`VersionDetector.ts`
lines 295–336): fetch the entry document, and when the response is ok
compare the `etag` / `last-modified` headers against the stored
fingerprint.  A rejected fetch lands in the function's own `catch`
(line 337), which only logs and falls through to `return false`.
Returns (result, new storage, event trace). -/
def checkVersionByIndexBody (cbs : List CbBehavior) (st : Storage) :
    FetchOutcome → Bool × Storage × List Event
  | FetchOutcome.throws =>
      -- `catch (error) { console.warn('无法检查index.html:', error); }`
      (false, st, [Event.fetchIndex])
  | FetchOutcome.resp ok etag lastModified =>
      if ok then
        let storedEtag := st.etag
        let storedLastModified := st.lastModified
        if !truthy storedEtag && !truthy storedLastModified then
          -- defensive path: no stored fingerprint; record current values
          (false,
           { etag := applyHeader storedEtag etag,
             lastModified := applyHeader storedLastModified lastModified },
           Event.fetchIndex ::
             (recordHeader etagKey etag ++ recordHeader lastModifiedKey lastModified))
        else
          let hasUpdate := headerDiffers etag storedEtag ||
                           headerDiffers lastModified storedLastModified
          if hasUpdate then
            (true,
             { etag := applyHeader storedEtag etag,
               lastModified := applyHeader storedLastModified lastModified },
             Event.fetchIndex ::
               (recordHeader etagKey etag ++ recordHeader lastModifiedKey lastModified
                 ++ notifyUpdate cbs UpdateReason.redeploy))
          else
            (false, st, [Event.fetchIndex])
      else
        -- `response.ok` false: fall through, return false
        (false, st, [Event.fetchIndex])

/-- `checkVersionByIndex()` (`VersionDetector.ts` lines 294–342) as seen
by its caller: the whole body sits inside `try { ... } catch (error) {
console.warn(...) }`, so the returned promise *never rejects* — the
result is always `Except.ok`, including when the fetch itself throws. -/
def checkVersionByIndex (cbs : List CbBehavior) (st : Storage)
    (outcome : FetchOutcome) : Except String (Bool × Storage × List Event) :=
  Except.ok (checkVersionByIndexBody cbs st outcome)

/-- `checkForUpdate()` (`VersionDetector.ts` lines 254–288).  Gates:
development skip, then the in-flight flag.  Then sets the flag, awaits
`checkVersionByIndex`, and — only if that promise rejects (which, per
`checkVersionByIndex`'s own catch-all, it never does) — runs the
connectivity probe and possibly notifies `network-error`.  The `finally`
clears the in-flight flag on every exit path.
Returns (result, new state, event trace). -/
def checkForUpdate (d : DetectorState) (w : World) :
    Bool × DetectorState × List Event :=
  if d.isLocalDevelopment && d.skipInDevelopment then
    (false, d, [])
  else if d.isChecking then
    (false, d, [])
  else
    -- `this.isChecking = true;`
    match checkVersionByIndex d.onUpdateCallbacks d.storage w.indexFetch with
    | Except.ok r =>
        -- `finally { this.isChecking = false; }`
        (r.1, { d with storage := r.2.1, isChecking := false }, r.2.2)
    | Except.error _ =>
        -- `catch`: connectivity probe `fetch('/', { method: 'HEAD' })`
        if w.probeSucceeds then
          (false, { d with isChecking := false },
           [Event.fetchIndex, Event.fetchProbe])
        else
          (true, { d with isChecking := false },
           [Event.fetchIndex, Event.fetchProbe]
             ++ notifyUpdate d.onUpdateCallbacks UpdateReason.networkError)

/-- `stopVersionCheck()` (`VersionDetector.ts` lines 243–248):
`clearInterval` and null out the timer when it is set. -/
def stopVersionCheck (d : DetectorState) : DetectorState :=
  if d.timerActive then { d with timerActive := false } else d

/-- `destroy()` (`VersionDetector.ts` lines 394–398): stop the timer and
clear both callback registries. -/
def destroy (d : DetectorState) : DetectorState :=
  let d1 := stopVersionCheck d
  { d1 with onUpdateCallbacks := [], onResourceErrorCallbacks := [] }

end VersionDetector

/-- Events that only pick out the update-callback activity of a trace. -/
def isCallbackEvent : Event → Bool
  | Event.callbackInvoked _ _ => true
  | Event.callbackError _ _ => true
  | _ => false

/-- The update-callback activity (invocations and caught exceptions) of a
trace, in order. -/
def notifications (evs : List Event) : List Event :=
  evs.filter isCallbackEvent

/-- The registration indices at which callbacks were actually invoked, in
invocation order. -/
def invokedIndices (evs : List Event) : List Nat :=
  evs.filterMap fun e =>
    match e with
    | Event.callbackInvoked i _ => some i
    | _ => none

/-- What `updateContent` renders into the dialog: the reason-dependent
title/description/icon, whether a red warning banner is appended
(`getErrorDetails`), and whether the "later" button is rendered. -/
structure RenderedContent where
  title : String
  description : String
  icon : String
  hasErrorBanner : Bool
  laterButton : Bool
deriving DecidableEq, Repr

/-- Observable side effects of the prompt controller. -/
inductive PromptEvent where
  /-- the fade/scale-out close transition was started -/
  | transitionOut
  /-- the overlay and dialog were structurally hidden
  (`display: none`, scheduled 300 ms after `hide()`) -/
  | structuralHide
  /-- `this.events.onClose?.()` was called -/
  | onCloseCalled
  /-- `this.events.onLater?.()` was called -/
  | onLaterCalled
deriving DecidableEq, Repr

/-- The state of an `UpdateNotification` instance: its immutable options
(`laterInterval`), its DOM handles, and its mutable fields. -/
structure PromptState where
  /-- `this.options.laterInterval` (ms, default 600000) -/
  laterInterval : Nat
  /-- `this.container !== null` (false once destroyed) -/
  container : Bool
  /-- the overlay (`container.parentElement`, created at construction) is
  still a child of `document.body`; `removeChild` throws when it is not -/
  overlayInBody : Bool
  /-- `this.isVisible` -/
  isVisible : Bool
  /-- `this.refreshing` -/
  refreshing : Bool
  /-- `this.laterTimestamp` (0 = never dismissed) -/
  laterTimestamp : Nat
  /-- the content currently rendered into the dialog
  (`none` = never rendered) -/
  content : Option RenderedContent
deriving DecidableEq, Repr

namespace UpdateNotification

/-- `getContentByReason` (`UpdateNotification.ts` lines 317–345):
(title, description, icon) selected by the update reason. -/
def getContentByReason : UpdateReason → String × String × String
  | UpdateReason.versionChange =>
      ("发现新版本", "为了获得更好的使用体验，请刷新页面更新到最新版本。", "↻")
  | UpdateReason.resourceError =>
      ("应用已更新", "请刷新页面以获得最新内容。", "⚠")
  | UpdateReason.networkError =>
      ("网络连接异常", "网络连接异常，建议刷新页面重试。", "⚠")
  | _ =>
      -- `case 'redeploy': default:`
      ("应用已更新", "请刷新页面以获得最新内容。", "↻")

/-- `updateContent(reason, forceUpdate)` (`UpdateNotification.ts` lines
220–312): renders title/description/icon per `getContentByReason`, a red
error banner for `resource-error` / `network-error` (`getErrorDetails`),
and omits the "later" button when
`forceUpdate || reason === 'resource-error'`. -/
def updateContent (reason : UpdateReason) (forceUpdate : Bool) : RenderedContent :=
  let c := getContentByReason reason
  let isForceUpdate := forceUpdate || reason == UpdateReason.resourceError
  { title := c.1
    description := c.2.1
    icon := c.2.2
    hasErrorBanner :=
      reason == UpdateReason.resourceError || reason == UpdateReason.networkError
    laterButton := !isForceUpdate }

/-- `show(reason, forceUpdate)` (`UpdateNotification.ts` lines 150–186).
Suppression first: a non-`resource-error` reason inside the "later"
window (`laterTimestamp` truthy and `now - laterTimestamp <
laterInterval`) returns without touching anything.  Then the destroyed
guard.  Otherwise: `isVisible := true`, `refreshing := false`, and the
content is re-rendered.  (`Nat` subtraction: for `now <
laterTimestamp` both JavaScript — a negative difference — and `Nat` —
zero — take the suppressed branch when `laterInterval > 0`.) -/
def «show» (s : PromptState) (reason : UpdateReason) (forceUpdate : Bool)
    (now : Nat) : PromptState :=
  if reason ≠ UpdateReason.resourceError ∧ s.laterTimestamp ≠ 0 ∧
      now - s.laterTimestamp < s.laterInterval then
    s
  else if s.container then
    { s with isVisible := true, refreshing := false,
             content := some (updateContent reason forceUpdate) }
  else
    s

/-- `hide()` (`UpdateNotification.ts` lines 191–215).  On a live
container: `isVisible := false`, `refreshing := false`, start the close
transition, schedule the structural hide 300 ms out, then call
`onClose` — all during the `hide()` call itself.  Returns
(new state, events emitted during the call in order, events that fire
after the 300 ms transition). -/
def hide (s : PromptState) : PromptState × List PromptEvent × List PromptEvent :=
  if s.container then
    ({ s with isVisible := false, refreshing := false },
     [PromptEvent.transitionOut, PromptEvent.onCloseCalled],
     [PromptEvent.structuralHide])
  else
    (s, [], [])

/-- `handleLater()` (`UpdateNotification.ts` lines 433–437):
`laterTimestamp = Date.now()`, then `hide()`, then `onLater`. -/
def handleLater (s : PromptState) (now : Nat) :
    PromptState × List PromptEvent × List PromptEvent :=
  let r := hide { s with laterTimestamp := now }
  (r.1, r.2.1 ++ [PromptEvent.onLaterCalled], r.2.2)

/-- `destroy()` (`UpdateNotification.ts` lines 442–450): when the
container is live, `document.body.removeChild(overlay)` (which throws if
the overlay is no longer a child of `document.body`) and then
`this.container = null`; a no-op once already destroyed. -/
def destroy (s : PromptState) : Except String PromptState :=
  if s.container then
    if s.overlayInBody then
      Except.ok { s with overlayInBody := false, container := false }
    else
      Except.error "removeChild: overlay is not a child of document.body"
  else
    Except.ok s

/-- A freshly constructed prompt (`createContainer` appends the overlay,
initially hidden, to `document.body`). -/
def mk (laterInterval : Nat) : PromptState :=
  { laterInterval := laterInterval
    container := true
    overlayInBody := true
    isVisible := false
    refreshing := false
    laterTimestamp := 0
    content := none }

end UpdateNotification

/-! ## Helper lemmas -/

/-- For a header value that is not the (pathological) empty string,
JavaScript truthiness coincides with presence. -/
lemma truthy_of_ne_empty : ∀ {h : Option String}, h ≠ some "" → truthy h = h.isSome
  | none, _ => rfl
  | some s, hw => by
      simp only [truthy, Option.isSome_some, decide_eq_true_eq]
      exact fun hs => hw (by rw [hs])

/-- For a non-empty-string header, `applyHeader` keeps the stored value
exactly when the header is absent. -/
lemma applyHeader_of_ne_empty {st h : Option String} (hw : h ≠ some "") :
    applyHeader st h = if h.isSome then h else st := by
  rw [applyHeader, truthy_of_ne_empty hw]

/-- For a non-empty-string header, the source's `header && header !==
stored` test holds exactly when the header is present and differs from
the stored value. -/
lemma headerDiffers_iff {h st : Option String} (hw : h ≠ some "") :
    headerDiffers h st = true ↔ h.isSome = true ∧ h ≠ st := by
  rw [headerDiffers, truthy_of_ne_empty hw]
  simp

lemma notifications_append (a b : List Event) :
    notifications (a ++ b) = notifications a ++ notifications b :=
  List.filter_append ..

lemma notifications_recordHeader (k : String) (h : Option String) :
    notifications (recordHeader k h) = [] := by
  cases h with
  | none => rfl
  | some s =>
      by_cases hs : s = "" <;>
        simp [recordHeader, hs, notifications, isCallbackEvent]

lemma notifications_notifyFrom (i : Nat) (r : UpdateReason)
    (cbs : List CbBehavior) :
    notifications (VersionDetector.notifyFrom i r cbs) =
      VersionDetector.notifyFrom i r cbs := by
  induction cbs generalizing i with
  | nil => rfl
  | cons cb rest ih =>
      cases cb with
      | ok =>
          have h1 : VersionDetector.notifyFrom i r (CbBehavior.ok :: rest) =
              [Event.callbackInvoked i r] ++
                VersionDetector.notifyFrom (i + 1) r rest := rfl
          rw [h1, notifications_append, ih]
          rfl
      | throws =>
          have h1 : VersionDetector.notifyFrom i r (CbBehavior.throws :: rest) =
              [Event.callbackInvoked i r, Event.callbackError i r] ++
                VersionDetector.notifyFrom (i + 1) r rest := rfl
          rw [h1, notifications_append, ih]
          rfl

lemma notifications_notifyUpdate (cbs : List CbBehavior) (r : UpdateReason) :
    notifications (VersionDetector.notifyUpdate cbs r) =
      VersionDetector.notifyUpdate cbs r :=
  notifications_notifyFrom 0 r cbs

lemma invokedIndices_append (a b : List Event) :
    invokedIndices (a ++ b) = invokedIndices a ++ invokedIndices b :=
  List.filterMap_append ..

lemma invokedIndices_notifyFrom (i : Nat) (r : UpdateReason)
    (cbs : List CbBehavior) :
    invokedIndices (VersionDetector.notifyFrom i r cbs) =
      List.range' i cbs.length := by
  induction cbs generalizing i with
  | nil => rfl
  | cons cb rest ih =>
      cases cb with
      | ok =>
          have h1 : VersionDetector.notifyFrom i r (CbBehavior.ok :: rest) =
              [Event.callbackInvoked i r] ++
                VersionDetector.notifyFrom (i + 1) r rest := rfl
          rw [h1, invokedIndices_append, ih, List.length_cons,
              List.range'_succ]
          rfl
      | throws =>
          have h1 : VersionDetector.notifyFrom i r (CbBehavior.throws :: rest) =
              [Event.callbackInvoked i r, Event.callbackError i r] ++
                VersionDetector.notifyFrom (i + 1) r rest := rfl
          rw [h1, invokedIndices_append, ih, List.length_cons,
              List.range'_succ]
          rfl

/-- Unfolding of `checkForUpdate` past its two gates. -/
lemma checkForUpdate_run (d : DetectorState) (w : World)
    (hdev : (d.isLocalDevelopment && d.skipInDevelopment) = false)
    (hflight : d.isChecking = false) :
    VersionDetector.checkForUpdate d w =
      ((VersionDetector.checkVersionByIndexBody d.onUpdateCallbacks d.storage w.indexFetch).1,
       { d with
          storage := (VersionDetector.checkVersionByIndexBody d.onUpdateCallbacks d.storage w.indexFetch).2.1,
          isChecking := false },
       (VersionDetector.checkVersionByIndexBody d.onUpdateCallbacks d.storage w.indexFetch).2.2) := by
  simp [VersionDetector.checkForUpdate, VersionDetector.checkVersionByIndex,
        hdev, hflight]

/-! ## Claim theorems -/

/-- Example detector state used by closed witnesses: production mode, not
checking, timer running, one well-behaved registered update callback,
and a persisted fingerprint `{etag: "a", lastModified: "t1"}`. -/
def dEx : DetectorState :=
  { isLocalDevelopment := false
    skipInDevelopment := true
    isChecking := false
    timerActive := true
    onUpdateCallbacks := [CbBehavior.ok]
    onResourceErrorCallbacks := []
    storage := { etag := some "a", lastModified := some "t1" } }

/-- C1, settled as a code bug.  The claim (and `checkForUpdate`'s own
comments, lines 273–280) says: when the primary fetch of `/index.html`
throws, a connectivity probe (`HEAD /`) is attempted, and when the probe
also throws, callbacks are notified with reason `network-error` and the
call resolves `true`.  In the code, however, `checkVersionByIndex`
catches the fetch rejection itself (line 337) and resolves `false`, so
`checkForUpdate`'s `catch` block — the probe and the `network-error`
notification — is unreachable.  At the claimed input (primary fetch
throws, probe would also throw) the call resolves `false`, issues no
probe (`Event.fetchProbe` absent from the trace) and invokes no
callback. -/
theorem c1_network_fallback_dead :
    VersionDetector.checkForUpdate dEx
      { indexFetch := FetchOutcome.throws, probeSucceeds := false }
    = (false,
       { isLocalDevelopment := false
         skipInDevelopment := true
         isChecking := false
         timerActive := true
         onUpdateCallbacks := [CbBehavior.ok]
         onResourceErrorCallbacks := []
         storage := { etag := some "a", lastModified := some "t1" } },
       [Event.fetchIndex]) := rfl

/-- C4: mutual exclusion of checks.  A `checkForUpdate` call that finds
the in-flight flag set resolves `false` immediately, with an empty
effect trace (no fetch) and unchanged state; and a call that actually
enters (flag clear) leaves the flag cleared on every exit path. -/
theorem c4_mutual_exclusion (d : DetectorState) (w : World) :
    (d.isChecking = true →
      VersionDetector.checkForUpdate d w = (false, d, [])) ∧
    (d.isChecking = false →
      (VersionDetector.checkForUpdate d w).2.1.isChecking = false) := by
  constructor
  · intro h
    by_cases hdev : (d.isLocalDevelopment && d.skipInDevelopment) = true <;>
      simp [VersionDetector.checkForUpdate, hdev, h]
  · intro h
    by_cases hdev : (d.isLocalDevelopment && d.skipInDevelopment) = true
    · simp [VersionDetector.checkForUpdate, hdev, h]
    · rw [checkForUpdate_run d w (by simpa using hdev) h]

/-- Closed witness for `c4_mutual_exclusion`: an overlapping call on a
busy detector resolves `false` without fetching, and a completed call on
an idle detector ends with the flag clear. -/
theorem c4_mutual_exclusion_witness :
    VersionDetector.checkForUpdate { dEx with isChecking := true }
        { indexFetch := FetchOutcome.throws, probeSucceeds := true }
      = (false, { dEx with isChecking := true }, []) ∧
    (VersionDetector.checkForUpdate dEx
        { indexFetch := FetchOutcome.throws, probeSucceeds := true }).2.1.isChecking
      = false :=
  ⟨(c4_mutual_exclusion { dEx with isChecking := true }
      { indexFetch := FetchOutcome.throws, probeSucceeds := true }).1 rfl,
   (c4_mutual_exclusion dEx
      { indexFetch := FetchOutcome.throws, probeSucceeds := true }).2 rfl⟩

/-- C5: development gate.  With `isLocalDevelopment` and
`skipInDevelopment` both set, every `checkForUpdate` call resolves
`false` with an empty effect trace — no fetch, no storage access, no
callback — and unchanged state. -/
theorem c5_development_gate (d : DetectorState) (w : World)
    (hdev : d.isLocalDevelopment = true) (hskip : d.skipInDevelopment = true) :
    VersionDetector.checkForUpdate d w = (false, d, []) := by
  simp [VersionDetector.checkForUpdate, hdev, hskip]

/-- Closed witness for `c5_development_gate` at a concrete development
state. -/
theorem c5_development_gate_witness :
    VersionDetector.checkForUpdate { dEx with isLocalDevelopment := true }
        { indexFetch := FetchOutcome.resp true (some "b") (some "t2"),
          probeSucceeds := true }
      = (false, { dEx with isLocalDevelopment := true }, []) :=
  c5_development_gate { dEx with isLocalDevelopment := true }
    { indexFetch := FetchOutcome.resp true (some "b") (some "t2"),
      probeSucceeds := true } rfl rfl

/-- C7: callback isolation.  `notifyUpdate` invokes every registered
update callback, in registration order (indices `0, 1, …, n-1`),
whatever each callback does — a callback that throws is caught and
logged and does not prevent the later callbacks from running.  That no
exception propagates to the caller is embedded in the type: the
per-callback `try`/`catch` makes `notifyUpdate` a total function into a
plain trace rather than an `Except`. -/
theorem c7_callback_isolation (cbs : List CbBehavior) (reason : UpdateReason) :
    invokedIndices (VersionDetector.notifyUpdate cbs reason) =
      List.range cbs.length := by
  rw [VersionDetector.notifyUpdate, invokedIndices_notifyFrom,
      List.range_eq_range']

lemma applyHeader_absent (st : Option String) : applyHeader st none = st := rfl

lemma applyHeader_none {h : Option String} (hw : h ≠ some "") :
    applyHeader none h = h := by
  rw [applyHeader_of_ne_empty hw]
  cases h <;> simp

lemma headerDiffers_self (h : Option String) : headerDiffers h h = false := by
  simp [headerDiffers]

lemma notifications_fetchIndex_cons (l : List Event) :
    notifications (Event.fetchIndex :: l) = notifications l := rfl

lemma notifications_nil : notifications [] = [] := rfl

/-- Characterization of the `try`-block on an ok response when a stored
fingerprint exists and the `hasUpdate` test fires. -/
lemma body_resp_update (cbs : List CbBehavior) (st : Storage)
    (e l : Option String)
    (hstored : (!truthy st.etag && !truthy st.lastModified) = false)
    (hU : (headerDiffers e st.etag || headerDiffers l st.lastModified) = true) :
    VersionDetector.checkVersionByIndexBody cbs st (FetchOutcome.resp true e l) =
      (true,
       { etag := applyHeader st.etag e,
         lastModified := applyHeader st.lastModified l },
       Event.fetchIndex ::
         (recordHeader etagKey e ++ recordHeader lastModifiedKey l
           ++ VersionDetector.notifyUpdate cbs UpdateReason.redeploy)) := by
  simp [VersionDetector.checkVersionByIndexBody, hstored, hU]

/-- Characterization of the `try`-block on an ok response when a stored
fingerprint exists and the `hasUpdate` test does not fire. -/
lemma body_resp_noupdate (cbs : List CbBehavior) (st : Storage)
    (e l : Option String)
    (hstored : (!truthy st.etag && !truthy st.lastModified) = false)
    (hU : (headerDiffers e st.etag || headerDiffers l st.lastModified) = false) :
    VersionDetector.checkVersionByIndexBody cbs st (FetchOutcome.resp true e l) =
      (false, st, [Event.fetchIndex]) := by
  simp [VersionDetector.checkVersionByIndexBody, hstored, hU]

/-- Characterization of the `try`-block on an ok response when no stored
fingerprint exists (the defensive path). -/
lemma body_resp_empty (cbs : List CbBehavior) (st : Storage)
    (e l : Option String)
    (hempty : (!truthy st.etag && !truthy st.lastModified) = true) :
    VersionDetector.checkVersionByIndexBody cbs st (FetchOutcome.resp true e l) =
      (false,
       { etag := applyHeader st.etag e,
         lastModified := applyHeader st.lastModified l },
       Event.fetchIndex ::
         (recordHeader etagKey e ++ recordHeader lastModifiedKey l)) := by
  simp [VersionDetector.checkVersionByIndexBody, hempty]

/-- C2: change detection against a persisted fingerprint.  Hypotheses:
production mode, no check in flight, the fetch resolves ok with headers
`e` / `l`, at least one fingerprint key is persisted, and none of the
four values is the pathological empty string (for which JavaScript
truthiness and presence diverge).  A header "differs" when it is present
in the response and unequal to the persisted value.  If either header
differs: the call resolves `true`, each present header's value is
persisted (an absent one leaves its key unchanged), and the update
callbacks are notified with reason `redeploy`.  If neither differs: the
call resolves `false` and no callback runs. -/
theorem c2_change_detection (d : DetectorState) (w : World)
    (e l : Option String)
    (hdev : (d.isLocalDevelopment && d.skipInDevelopment) = false)
    (hflight : d.isChecking = false)
    (hfetch : w.indexFetch = FetchOutcome.resp true e l)
    (hstored : d.storage.etag.isSome = true ∨ d.storage.lastModified.isSome = true)
    (hse : d.storage.etag ≠ some "") (hsl : d.storage.lastModified ≠ some "")
    (he : e ≠ some "") (hl : l ≠ some "") :
    (((e.isSome = true ∧ e ≠ d.storage.etag) ∨
      (l.isSome = true ∧ l ≠ d.storage.lastModified)) →
      (VersionDetector.checkForUpdate d w).1 = true ∧
      (VersionDetector.checkForUpdate d w).2.1.storage.etag =
        (if e.isSome then e else d.storage.etag) ∧
      (VersionDetector.checkForUpdate d w).2.1.storage.lastModified =
        (if l.isSome then l else d.storage.lastModified) ∧
      notifications (VersionDetector.checkForUpdate d w).2.2 =
        VersionDetector.notifyUpdate d.onUpdateCallbacks UpdateReason.redeploy) ∧
    (¬((e.isSome = true ∧ e ≠ d.storage.etag) ∨
       (l.isSome = true ∧ l ≠ d.storage.lastModified)) →
      (VersionDetector.checkForUpdate d w).1 = false ∧
      notifications (VersionDetector.checkForUpdate d w).2.2 = []) := by
  have hrun := checkForUpdate_run d w hdev hflight
  rw [hfetch] at hrun
  have hstored' : (!truthy d.storage.etag && !truthy d.storage.lastModified) = false := by
    rw [truthy_of_ne_empty hse, truthy_of_ne_empty hsl]
    rcases hstored with h | h <;> simp [h]
  have hiff : (headerDiffers e d.storage.etag ||
      headerDiffers l d.storage.lastModified) = true ↔
      ((e.isSome = true ∧ e ≠ d.storage.etag) ∨
       (l.isSome = true ∧ l ≠ d.storage.lastModified)) := by
    rw [Bool.or_eq_true, headerDiffers_iff he, headerDiffers_iff hl]
  constructor
  · intro hcd
    have hbody := body_resp_update d.onUpdateCallbacks d.storage e l hstored'
      (hiff.mpr hcd)
    rw [hrun, hbody]
    refine ⟨rfl, ?_, ?_, ?_⟩
    · exact applyHeader_of_ne_empty he
    · exact applyHeader_of_ne_empty hl
    · rw [notifications_fetchIndex_cons, notifications_append,
          notifications_append, notifications_recordHeader,
          notifications_recordHeader, notifications_notifyUpdate]
      rfl
  · intro hcd
    have hbody := body_resp_noupdate d.onUpdateCallbacks d.storage e l hstored'
      (Bool.eq_false_iff.mpr fun h => hcd (hiff.mp h))
    rw [hrun, hbody]
    exact ⟨rfl, rfl⟩

/-- Closed witness for `c2_change_detection`, the spec's own example:
persisted `{etag: "a", lastModified: "t1"}`, fetch returns
`{etag: "b", lastModified: "t1"}` — resolves `true`, the persisted etag
becomes `"b"`, and the one registered callback is invoked with
`redeploy`. -/
theorem c2_change_detection_witness :
    (VersionDetector.checkForUpdate dEx
        { indexFetch := FetchOutcome.resp true (some "b") (some "t1"),
          probeSucceeds := true }).1 = true ∧
    (VersionDetector.checkForUpdate dEx
        { indexFetch := FetchOutcome.resp true (some "b") (some "t1"),
          probeSucceeds := true }).2.1.storage.etag =
      (if (some "b" : Option String).isSome then some "b" else some "a") ∧
    (VersionDetector.checkForUpdate dEx
        { indexFetch := FetchOutcome.resp true (some "b") (some "t1"),
          probeSucceeds := true }).2.1.storage.lastModified =
      (if (some "t1" : Option String).isSome then some "t1" else some "t1") ∧
    notifications (VersionDetector.checkForUpdate dEx
        { indexFetch := FetchOutcome.resp true (some "b") (some "t1"),
          probeSucceeds := true }).2.2 =
      VersionDetector.notifyUpdate [CbBehavior.ok] UpdateReason.redeploy :=
  (c2_change_detection dEx
      { indexFetch := FetchOutcome.resp true (some "b") (some "t1"),
        probeSucceeds := true }
      (some "b") (some "t1") rfl rfl rfl (Or.inl rfl)
      (by decide) (by decide) (by decide) (by decide)).1
    (Or.inl ⟨rfl, by decide⟩)

lemma mem_recordHeader {k v k' : String} {h : Option String}
    (hm : Event.storageWrite k v ∈ recordHeader k' h) : k = k' ∧ h = some v := by
  cases h with
  | none => simp [recordHeader] at hm
  | some s =>
      by_cases hs : s = ""
      · simp [recordHeader, hs] at hm
      · simp [recordHeader, hs] at hm
        exact ⟨hm.1, by rw [hm.2]⟩

lemma storageWrite_not_mem_notifyFrom (k v : String) (i : Nat)
    (r : UpdateReason) (cbs : List CbBehavior) :
    Event.storageWrite k v ∉ VersionDetector.notifyFrom i r cbs := by
  induction cbs generalizing i with
  | nil => simp [VersionDetector.notifyFrom]
  | cons cb rest ih =>
      cases cb <;>
        simp [VersionDetector.notifyFrom, VersionDetector.invokeCb] <;>
        exact ih _

/-- C3: first-visit quiescence.  With both storage keys absent and an ok
fetch, `checkForUpdate` resolves `false`, invokes no callback, and
persists the observed header values; a second call that observes the
same headers also resolves `false` and invokes no callback. -/
theorem c3_first_visit_quiescence (d : DetectorState) (w : World)
    (e l : Option String)
    (hdev : (d.isLocalDevelopment && d.skipInDevelopment) = false)
    (hflight : d.isChecking = false)
    (hempty : d.storage = { etag := none, lastModified := none })
    (hfetch : w.indexFetch = FetchOutcome.resp true e l)
    (he : e ≠ some "") (hl : l ≠ some "") :
    (VersionDetector.checkForUpdate d w).1 = false ∧
    notifications (VersionDetector.checkForUpdate d w).2.2 = [] ∧
    (VersionDetector.checkForUpdate d w).2.1.storage =
      { etag := e, lastModified := l } ∧
    (VersionDetector.checkForUpdate
       (VersionDetector.checkForUpdate d w).2.1 w).1 = false ∧
    notifications (VersionDetector.checkForUpdate
       (VersionDetector.checkForUpdate d w).2.1 w).2.2 = [] := by
  have hrun := checkForUpdate_run d w hdev hflight
  rw [hfetch] at hrun
  have hb := body_resp_empty d.onUpdateCallbacks d.storage e l
    (by rw [hempty]; rfl)
  rw [hempty] at hb
  rw [hempty, hb, applyHeader_none he, applyHeader_none hl] at hrun
  rw [hrun]
  refine ⟨rfl, ?_, rfl, ?_, ?_⟩
  · rw [notifications_fetchIndex_cons, notifications_append,
        notifications_recordHeader, notifications_recordHeader]
    rfl
  all_goals {
    have hrun2 := checkForUpdate_run
      { d with storage := { etag := e, lastModified := l }, isChecking := false }
      w hdev rfl
    rw [hfetch] at hrun2
    by_cases hte : truthy e = true
    · have hb2 := body_resp_noupdate d.onUpdateCallbacks
        { etag := e, lastModified := l } e l
        (by simp [hte])
        (by simp [headerDiffers_self])
      rw [hb2] at hrun2
      rw [hrun2]
      try simp [notifications_fetchIndex_cons, notifications_append,
                notifications_recordHeader, notifications_nil]
    · by_cases htl : truthy l = true
      · have hb2 := body_resp_noupdate d.onUpdateCallbacks
          { etag := e, lastModified := l } e l
          (by simp [htl])
          (by simp [headerDiffers_self])
        rw [hb2] at hrun2
        rw [hrun2]
        try simp [notifications_fetchIndex_cons, notifications_append,
                  notifications_recordHeader, notifications_nil]
      · have hb2 := body_resp_empty d.onUpdateCallbacks
          { etag := e, lastModified := l } e l
          (by simp [Bool.eq_false_iff.mpr hte, Bool.eq_false_iff.mpr htl])
        rw [hb2] at hrun2
        rw [hrun2]
        try simp [notifications_fetchIndex_cons, notifications_append,
                  notifications_recordHeader, notifications_nil]
  }

/-- Closed witness for `c3_first_visit_quiescence`: empty storage, fetch
returns `{etag: "x", lastModified: "t0"}` — both calls resolve `false`,
nothing is notified, and the fingerprint is recorded. -/
theorem c3_first_visit_quiescence_witness :
    (VersionDetector.checkForUpdate { dEx with storage := { etag := none, lastModified := none } }
        { indexFetch := FetchOutcome.resp true (some "x") (some "t0"),
          probeSucceeds := true }).1 = false ∧
    notifications (VersionDetector.checkForUpdate { dEx with storage := { etag := none, lastModified := none } }
        { indexFetch := FetchOutcome.resp true (some "x") (some "t0"),
          probeSucceeds := true }).2.2 = [] ∧
    (VersionDetector.checkForUpdate { dEx with storage := { etag := none, lastModified := none } }
        { indexFetch := FetchOutcome.resp true (some "x") (some "t0"),
          probeSucceeds := true }).2.1.storage =
      { etag := some "x", lastModified := some "t0" } ∧
    (VersionDetector.checkForUpdate
       (VersionDetector.checkForUpdate { dEx with storage := { etag := none, lastModified := none } }
          { indexFetch := FetchOutcome.resp true (some "x") (some "t0"),
            probeSucceeds := true }).2.1
       { indexFetch := FetchOutcome.resp true (some "x") (some "t0"),
         probeSucceeds := true }).1 = false ∧
    notifications (VersionDetector.checkForUpdate
       (VersionDetector.checkForUpdate { dEx with storage := { etag := none, lastModified := none } }
          { indexFetch := FetchOutcome.resp true (some "x") (some "t0"),
            probeSucceeds := true }).2.1
       { indexFetch := FetchOutcome.resp true (some "x") (some "t0"),
         probeSucceeds := true }).2.2 = [] :=
  c3_first_visit_quiescence
    { dEx with storage := { etag := none, lastModified := none } }
    { indexFetch := FetchOutcome.resp true (some "x") (some "t0"),
      probeSucceeds := true }
    (some "x") (some "t0") rfl rfl rfl rfl (by decide) (by decide)

/-- C10: absent-header frame property.  For any successful
`checkForUpdate` (ok response with headers `e` / `l`): a stored
fingerprint key is written only with the value of its own present
response header (`storageWrite` events for `app_index_etag` carry
exactly the fetched etag, and likewise for `app_index_last_modified`);
an absent header leaves its stored key unchanged; and a response
carrying neither header resolves `false` and leaves the whole storage
unchanged — even when stored values exist — with no callback invoked. -/
theorem c10_absent_header_frame (d : DetectorState) (w : World)
    (e l : Option String)
    (hdev : (d.isLocalDevelopment && d.skipInDevelopment) = false)
    (hflight : d.isChecking = false)
    (hfetch : w.indexFetch = FetchOutcome.resp true e l) :
    (e = none →
      (VersionDetector.checkForUpdate d w).2.1.storage.etag = d.storage.etag) ∧
    (l = none →
      (VersionDetector.checkForUpdate d w).2.1.storage.lastModified =
        d.storage.lastModified) ∧
    (∀ v, Event.storageWrite etagKey v ∈ (VersionDetector.checkForUpdate d w).2.2 →
      e = some v) ∧
    (∀ v, Event.storageWrite lastModifiedKey v ∈ (VersionDetector.checkForUpdate d w).2.2 →
      l = some v) ∧
    (e = none → l = none →
      (VersionDetector.checkForUpdate d w).1 = false ∧
      (VersionDetector.checkForUpdate d w).2.1.storage = d.storage ∧
      notifications (VersionDetector.checkForUpdate d w).2.2 = []) := by
  have hrun := checkForUpdate_run d w hdev hflight
  rw [hfetch] at hrun
  have hkeys : etagKey ≠ lastModifiedKey := by decide
  by_cases hst : (!truthy d.storage.etag && !truthy d.storage.lastModified) = true
  · have hb := body_resp_empty d.onUpdateCallbacks d.storage e l hst
    rw [hb] at hrun
    rw [hrun]
    refine ⟨?_, ?_, ?_, ?_, ?_⟩
    · intro h; rw [h]; exact applyHeader_absent _
    · intro h; rw [h]; exact applyHeader_absent _
    · intro v hv
      simp only [List.mem_cons, List.mem_append] at hv
      rcases hv with hv | hv | hv
      · exact absurd hv (by simp)
      · exact (mem_recordHeader hv).2
      · exact absurd (mem_recordHeader hv).1 hkeys
    · intro v hv
      simp only [List.mem_cons, List.mem_append] at hv
      rcases hv with hv | hv | hv
      · exact absurd hv (by simp)
      · exact absurd (mem_recordHeader hv).1 hkeys.symm
      · exact (mem_recordHeader hv).2
    · intro hen hln
      rw [hen, hln]
      refine ⟨rfl, rfl, rfl⟩
  · have hst' : (!truthy d.storage.etag && !truthy d.storage.lastModified) = false :=
      Bool.eq_false_iff.mpr hst
    by_cases hU : (headerDiffers e d.storage.etag ||
        headerDiffers l d.storage.lastModified) = true
    · have hb := body_resp_update d.onUpdateCallbacks d.storage e l hst' hU
      rw [hb] at hrun
      rw [hrun]
      refine ⟨?_, ?_, ?_, ?_, ?_⟩
      · intro h; rw [h]; exact applyHeader_absent _
      · intro h; rw [h]; exact applyHeader_absent _
      · intro v hv
        simp only [List.mem_cons, List.mem_append] at hv
        rcases hv with hv | (hv | hv) | hv
        · exact absurd hv (by simp)
        · exact (mem_recordHeader hv).2
        · exact absurd (mem_recordHeader hv).1 hkeys
        · exact absurd hv (storageWrite_not_mem_notifyFrom _ _ _ _ _)
      · intro v hv
        simp only [List.mem_cons, List.mem_append] at hv
        rcases hv with hv | (hv | hv) | hv
        · exact absurd hv (by simp)
        · exact absurd (mem_recordHeader hv).1 hkeys.symm
        · exact (mem_recordHeader hv).2
        · exact absurd hv (storageWrite_not_mem_notifyFrom _ _ _ _ _)
      · intro hen hln
        rw [hen, hln] at hU
        simp [headerDiffers, truthy] at hU
    · have hb := body_resp_noupdate d.onUpdateCallbacks d.storage e l hst'
        (Bool.eq_false_iff.mpr hU)
      rw [hb] at hrun
      rw [hrun]
      refine ⟨fun _ => rfl, fun _ => rfl, ?_, ?_, fun _ _ => ⟨rfl, rfl, rfl⟩⟩
      · intro v hv
        simp at hv
      · intro v hv
        simp at hv

/-- Closed witness for `c10_absent_header_frame`: stored fingerprint
present, response carries neither header — the call resolves `false`,
storage is untouched, and no callback runs. -/
theorem c10_absent_header_frame_witness :
    ((none : Option String) = none →
      (VersionDetector.checkForUpdate dEx
          { indexFetch := FetchOutcome.resp true none none,
            probeSucceeds := true }).2.1.storage.etag = dEx.storage.etag) ∧
    ((none : Option String) = none →
      (VersionDetector.checkForUpdate dEx
          { indexFetch := FetchOutcome.resp true none none,
            probeSucceeds := true }).2.1.storage.lastModified =
        dEx.storage.lastModified) ∧
    (∀ v, Event.storageWrite etagKey v ∈ (VersionDetector.checkForUpdate dEx
        { indexFetch := FetchOutcome.resp true none none,
          probeSucceeds := true }).2.2 → (none : Option String) = some v) ∧
    (∀ v, Event.storageWrite lastModifiedKey v ∈ (VersionDetector.checkForUpdate dEx
        { indexFetch := FetchOutcome.resp true none none,
          probeSucceeds := true }).2.2 → (none : Option String) = some v) ∧
    ((none : Option String) = none → (none : Option String) = none →
      (VersionDetector.checkForUpdate dEx
          { indexFetch := FetchOutcome.resp true none none,
            probeSucceeds := true }).1 = false ∧
      (VersionDetector.checkForUpdate dEx
          { indexFetch := FetchOutcome.resp true none none,
            probeSucceeds := true }).2.1.storage = dEx.storage ∧
      notifications (VersionDetector.checkForUpdate dEx
          { indexFetch := FetchOutcome.resp true none none,
            probeSucceeds := true }).2.2 = []) :=
  c10_absent_header_frame dEx
    { indexFetch := FetchOutcome.resp true none none, probeSucceeds := true }
    none none rfl rfl rfl

/-- Example prompt state for closed witnesses: freshly constructed with
`laterInterval = 1000`, then dismissed via the "later" button at time
1000. -/
def pEx : PromptState :=
  (UpdateNotification.handleLater (UpdateNotification.mk 1000) 1000).1

/-- C6: suppression window.  While inside the "later" window
(`lastDismissedAt ≠ 0` and `now - lastDismissedAt < laterInterval`), a
`show` call with any reason other than `resource-error` is a no-op — the
whole state, in particular visibility and rendered content, is unchanged,
whatever `forceUpdate` is — while a `show('resource-error', _)` call on a
non-destroyed prompt in the same window makes it visible. -/
theorem c6_suppression_window (s : PromptState) (reason : UpdateReason)
    (force : Bool) (now : Nat)
    (hdis : s.laterTimestamp ≠ 0)
    (hwin : now - s.laterTimestamp < s.laterInterval) :
    (reason ≠ UpdateReason.resourceError →
      UpdateNotification.«show» s reason force now = s) ∧
    (s.container = true →
      (UpdateNotification.«show» s UpdateReason.resourceError force now).isVisible
        = true) := by
  constructor
  · intro hr
    rw [UpdateNotification.«show», if_pos ⟨hr, hdis, hwin⟩]
  · intro hc
    rw [UpdateNotification.«show»]
    simp [hc]

/-- Closed witness for `c6_suppression_window`, the spec's scenario:
dismissed at time 1000 with `laterInterval = 1000`; at time 1500 a
`show('version-change')` leaves the state untouched while a
`show('resource-error')` makes the prompt visible. -/
theorem c6_suppression_window_witness :
    (UpdateReason.versionChange ≠ UpdateReason.resourceError →
      UpdateNotification.«show» pEx UpdateReason.versionChange false 1500 = pEx) ∧
    (pEx.container = true →
      (UpdateNotification.«show» pEx UpdateReason.resourceError false 1500).isVisible
        = true) :=
  c6_suppression_window pEx UpdateReason.versionChange false 1500
    (by decide) (by decide)

/-- C8: `hide()` on a non-destroyed prompt clears both `visible` and
`refreshing`, and invokes `onClose` synchronously during the `hide()`
call itself (it is among the events emitted at call time), not after the
300 ms transition (it is not among the delayed events; the structural
hide is what is delayed). -/
theorem c8_hide_sync_close (s : PromptState) (hc : s.container = true) :
    (UpdateNotification.hide s).1.isVisible = false ∧
    (UpdateNotification.hide s).1.refreshing = false ∧
    PromptEvent.onCloseCalled ∈ (UpdateNotification.hide s).2.1 ∧
    PromptEvent.onCloseCalled ∉ (UpdateNotification.hide s).2.2 ∧
    PromptEvent.structuralHide ∈ (UpdateNotification.hide s).2.2 := by
  rw [UpdateNotification.hide]
  simp [hc]

/-- Closed witness for `c8_hide_sync_close` on a freshly shown prompt. -/
theorem c8_hide_sync_close_witness :
    (UpdateNotification.hide (UpdateNotification.«show»
        (UpdateNotification.mk 1000) UpdateReason.redeploy false 5)).1.isVisible
      = false ∧
    (UpdateNotification.hide (UpdateNotification.«show»
        (UpdateNotification.mk 1000) UpdateReason.redeploy false 5)).1.refreshing
      = false ∧
    PromptEvent.onCloseCalled ∈ (UpdateNotification.hide (UpdateNotification.«show»
        (UpdateNotification.mk 1000) UpdateReason.redeploy false 5)).2.1 ∧
    PromptEvent.onCloseCalled ∉ (UpdateNotification.hide (UpdateNotification.«show»
        (UpdateNotification.mk 1000) UpdateReason.redeploy false 5)).2.2 ∧
    PromptEvent.structuralHide ∈ (UpdateNotification.hide (UpdateNotification.«show»
        (UpdateNotification.mk 1000) UpdateReason.redeploy false 5)).2.2 :=
  c8_hide_sync_close
    (UpdateNotification.«show» (UpdateNotification.mk 1000) UpdateReason.redeploy false 5)
    (by decide)

/-- C9: idempotent teardown.  On the detector, `destroy` is idempotent
and after the second call the timer is cancelled and both callback
registries are empty; on the prompt, once a `destroy` call has succeeded,
calling `destroy` again produces no error and is a no-op. -/
theorem c9_idempotent_teardown (d : DetectorState) (s s' : PromptState)
    (h : UpdateNotification.destroy s = Except.ok s') :
    VersionDetector.destroy (VersionDetector.destroy d) =
      VersionDetector.destroy d ∧
    (VersionDetector.destroy (VersionDetector.destroy d)).timerActive = false ∧
    (VersionDetector.destroy (VersionDetector.destroy d)).onUpdateCallbacks = [] ∧
    (VersionDetector.destroy (VersionDetector.destroy d)).onResourceErrorCallbacks
      = [] ∧
    UpdateNotification.destroy s' = Except.ok s' := by
  refine ⟨?_, ?_, rfl, rfl, ?_⟩
  · rw [VersionDetector.destroy, VersionDetector.destroy,
        VersionDetector.stopVersionCheck, VersionDetector.stopVersionCheck]
    by_cases ht : d.timerActive <;> simp [ht]
  · rw [VersionDetector.destroy, VersionDetector.destroy,
        VersionDetector.stopVersionCheck, VersionDetector.stopVersionCheck]
    by_cases ht : d.timerActive <;> simp [ht]
  · by_cases hc : s.container
    · by_cases ho : s.overlayInBody
      · rw [UpdateNotification.destroy, if_pos hc, if_pos ho] at h
        cases h
        rw [UpdateNotification.destroy]
        simp
      · rw [UpdateNotification.destroy, if_pos hc, if_neg ho] at h
        cases h
    · rw [UpdateNotification.destroy, if_neg hc] at h
      cases h
      rw [UpdateNotification.destroy, if_neg hc]

/-- Closed witness for `c9_idempotent_teardown`: a running detector and
a freshly constructed prompt, destroyed once successfully. -/
theorem c9_idempotent_teardown_witness :
    VersionDetector.destroy (VersionDetector.destroy dEx) =
      VersionDetector.destroy dEx ∧
    (VersionDetector.destroy (VersionDetector.destroy dEx)).timerActive = false ∧
    (VersionDetector.destroy (VersionDetector.destroy dEx)).onUpdateCallbacks = [] ∧
    (VersionDetector.destroy (VersionDetector.destroy dEx)).onResourceErrorCallbacks
      = [] ∧
    UpdateNotification.destroy
        { UpdateNotification.mk 1000 with container := false, overlayInBody := false }
      = Except.ok
        { UpdateNotification.mk 1000 with container := false, overlayInBody := false } :=
  c9_idempotent_teardown dEx (UpdateNotification.mk 1000)
    { UpdateNotification.mk 1000 with container := false, overlayInBody := false }
    rfl
